import Mathlib

/-!
Shallow embedding of `ytdl_gui.py` (Faber38/ytdlp-gui).

Pure helpers (`normalize_youtube_url`, `build_format`, batch-line parsing,
the progress hook arithmetic) are translated directly.  Environment access
(`os.environ`, `Path.exists`, `sys.platform`) is abstracted into an `Env`
record, and the external yt-dlp engine call is abstracted into a behavior
function `Nat → Bool → Option PyExn` giving, for each batch attempt index
and effective cookie flag, the exception the whole `ydl.download` loop
raises (or `none` when the attempt completes without error).
-/

namespace YtdlGui

/-- Python `str.strip()` default whitespace characters (ASCII portion). -/
def isPySpace (c : Char) : Bool :=
  c = ' ' || c = '\t' || c = '\n' || c = '\r' || c = Char.ofNat 11 || c = Char.ofNat 12

/-- `str.strip()` on a character list. -/
def pyStripList (s : List Char) : List Char :=
  ((s.dropWhile isPySpace).reverse.dropWhile isPySpace).reverse

/-- Characters matched by the regex class `[A-Za-z0-9_-]`. -/
def isUrlSafe (c : Char) : Bool :=
  c.isAlpha || c.isDigit || c = '_' || c = '-'

/-- Case-insensitive literal match at the head of the input: returns the rest
of the input after the (lower-case) pattern, as `re` does with `IGNORECASE`. -/
def litMatch : List Char → List Char → Option (List Char)
  | [], rest => some rest
  | _ :: _, [] => none
  | p :: ps, c :: cs => if c.toLower = p then litMatch ps cs else none

/-- `re.match("^" + pat, s, IGNORECASE)` viewed as a Bool: the literal pattern
matches at the start of the string. -/
def startsWithCI (pat : List Char) (s : List Char) : Bool :=
  (litMatch pat s).isSome

/-- `re.search(pat, s, IGNORECASE)` for a literal pattern, viewed as a Bool:
the literal occurs somewhere in the string. -/
def containsCI (pat : List Char) : List Char → Bool
  | [] => (litMatch pat []).isSome
  | c :: cs => (litMatch pat (c :: cs)).isSome || containsCI pat cs

/-- Greedy capture of `[A-Za-z0-9_-]*`: the maximal URL-safe run at the head. -/
def takeIdRun : List Char → List Char
  | [] => []
  | c :: cs => if isUrlSafe c then c :: takeIdRun cs else []

/-- `re.search(lit + "([A-Za-z0-9_-]{6,})", s, IGNORECASE)`: leftmost position
where the literal matches and is followed by a URL-safe run of length ≥ 6;
the capture group is that (greedy, maximal) run. -/
def searchCapture (pat : List Char) : List Char → Option (List Char)
  | [] => none
  | c :: cs =>
    match litMatch pat (c :: cs) with
    | some rest =>
      let vid := takeIdRun rest
      if 6 ≤ vid.length then some vid else searchCapture pat cs
    | none => searchCapture pat cs

/-- The regex `^https?://` (IGNORECASE) of `normalize_youtube_url`. -/
def schemeOk (u : List Char) : Bool :=
  startsWithCI "http://".data u || startsWithCI "https://".data u

/-- The regex `(youtube\.com|youtu\.be)` searched anywhere (IGNORECASE). -/
def domainOk (u : List Char) : Bool :=
  containsCI "youtube.com".data u || containsCI "youtu.be".data u

def shortsPat : List Char := "youtube.com/shorts/".data

def shortLinkPat : List Char := "youtu.be/".data

/-- Body of `normalize_youtube_url` after stripping, on a character list. -/
def normChars (u : List Char) : String :=
  if u = [] then ""
  else if schemeOk u = false then ""
  else if domainOk u = false then ""
  else
    match searchCapture shortsPat u with
    | some vid => "https://www.youtube.com/watch?v=" ++ String.mk vid
    | none =>
      match searchCapture shortLinkPat u with
      | some vid => "https://www.youtube.com/watch?v=" ++ String.mk vid
      | none => String.mk u

/-- `normalize_youtube_url` from `ytdl_gui.py`. -/
def normalize_youtube_url (url : String) : String :=
  normChars (pyStripList url.data)

/-- `build_format` from `ytdl_gui.py`. -/
def build_format (q : String) (audio_only : Bool) : String :=
  if audio_only then "ba/b"
  else if q = "best" then "bv*[ext=mp4]+ba[ext=m4a]/bv*+ba/b"
  else "bv*[height<=" ++ q ++ "][ext=mp4]+ba[ext=m4a]/bv*[height<=" ++ q ++ "]+ba/b"

/-- The quality tiers offered by the UI combo box. -/
def qualities : List String := ["best", "1080", "720", "480", "360"]

/-- Host environment abstraction: `sys.platform.startswith("win")`, the
`APPDATA`/`LOCALAPPDATA` environment variables, and `Path(...).exists()`. -/
structure Env where
  is_windows : Bool
  appdata : String
  localappdata : String
  pathExists : String → Bool

/-- `_browser_profile_exists` from `ytdl_gui.py`. -/
def browser_profile_exists (env : Env) (browser : String) : Bool :=
  if browser = "firefox" then env.pathExists (env.appdata ++ "/Mozilla/Firefox/Profiles")
  else if browser = "chrome" then env.pathExists (env.localappdata ++ "/Google/Chrome/User Data")
  else if browser = "edge" then env.pathExists (env.localappdata ++ "/Microsoft/Edge/User Data")
  else false

/-- `pick_cookie_browser` from `ytdl_gui.py`: on Windows, scan
`("chrome", "edge", "firefox")` for an existing profile; on any other
platform, return `"firefox"` unconditionally. -/
def pick_cookie_browser (env : Env) : Option String :=
  if env.is_windows then
    if browser_profile_exists env "chrome" then some "chrome"
    else if browser_profile_exists env "edge" then some "edge"
    else if browser_profile_exists env "firefox" then some "firefox"
    else none
  else some "firefox"

/-! ## Progress hook (`DownloadWorker._hook`) -/

/-- Python `a or b` on an optional number: `None` and `0` are falsy.
Byte counts are modelled as naturals. -/
def pyOrNat (a : Option Nat) (b : Nat) : Nat :=
  match a with
  | some n => if n = 0 then b else n
  | none => b

/-- Python `a or b` on an optional string: `None` and `""` are falsy. -/
def pyOrStr (a : Option String) (b : String) : String :=
  match a with
  | some s => if s = "" then b else s
  | none => b

/-- Python `sep.join(...)`. -/
def joinSep (sep : String) : List String → String
  | [] => ""
  | [x] => x
  | x :: y :: rest => x ++ sep ++ joinSep sep (y :: rest)

/-- The fields of the progress dictionary `d` that `_hook` reads. -/
structure ProgressDict where
  status : String
  total_bytes : Option Nat
  total_bytes_estimate : Option Nat
  downloaded_bytes : Option Nat
  _speed_str : Option String
  _eta_str : Option String

/-- `total = d.get("total_bytes") or d.get("total_bytes_estimate") or 0`. -/
def hookTotal (d : ProgressDict) : Nat :=
  pyOrNat d.total_bytes (pyOrNat d.total_bytes_estimate 0)

/-- `downloaded = d.get("downloaded_bytes") or 0`. -/
def hookDownloaded (d : ProgressDict) : Nat :=
  pyOrNat d.downloaded_bytes 0

/-- `pct = 0; if total: pct = int(max(0, min(100, (downloaded * 100) / total)))`.
With non-negative byte counts `max 0` is the identity and `int` truncation of
the non-negative quotient is natural-number division. -/
def hookPct (d : ProgressDict) : Nat :=
  if hookTotal d = 0 then 0
  else min 100 (hookDownloaded d * 100 / hookTotal d)

/-- `info = " • ".join(x for x in [speed, f"ETA {eta}".strip()] if x)`. -/
def hookInfo (d : ProgressDict) : String :=
  let speed := pyOrStr d._speed_str ""
  let eta := pyOrStr d._eta_str ""
  joinSep " • " (([speed, String.mk (pyStripList ("ETA " ++ eta).data)]).filter (fun x => x ≠ ""))

/-- One `self.progress.emit(percent, info)` call. -/
inductive HookEmit where
  | progress (pct : Nat) (info : String)
deriving DecidableEq, Repr

/-- `DownloadWorker._hook`: the progress emissions for one callback dict. -/
def hook (d : ProgressDict) : List HookEmit :=
  if d.status = "downloading" then [.progress (hookPct d) (hookInfo d)]
  else if d.status = "finished" then [.progress 100 "Fertig (Postprocessing)"]
  else []

/-! ## Orchestrator (`DownloadWorker.run` / `_run_all`)

The engine call `ydl.download` over the whole URL loop of one attempt is
abstracted as a behavior `engine : Nat → Bool → Option PyExn`: for batch
attempt `n` run with effective cookie flag `eff`, `engine n eff` is the
exception the loop raises, or `none` when it completes. -/

/-- A Python exception escaping the engine call or the directory creation:
`DownloadError` or any other `Exception`. -/
inductive PyExn where
  | downloadError (msg : String)
  | otherError (msg : String)
deriving DecidableEq, Repr

/-- The `DownloadWorker` state set up by `__init__`. -/
structure Worker where
  urls : List String
  outdir : String
  q : String
  audio_only : Bool
  allow_playlist : Bool
  use_cookies : Bool
  cookie_browser : Option String

/-- `DownloadWorker.__init__`:
`self._cookie_browser = pick_cookie_browser() if use_cookies else None`. -/
def Worker.init (env : Env) (urls : List String) (outdir q : String)
    (audio_only allow_playlist use_cookies : Bool) : Worker :=
  ⟨urls, outdir, q, audio_only, allow_playlist, use_cookies,
    if use_cookies then pick_cookie_browser env else none⟩

/-- `DownloadWorker._run_all(with_cookies)`: drops the cookie request when no
browser profile was resolved, invokes the engine once for the whole batch
(attempt index `n`), and catches `DownloadError` and every other exception,
turning them into `False`.  Returns (effective cookie flag passed to
`_make_opts`/`cookiesfrombrowser`, success flag). -/
def run_all (engine : Nat → Bool → Option PyExn) (browser : Option String)
    (n : Nat) (with_cookies : Bool) : Bool × Bool :=
  let wc := if with_cookies && browser.isNone then false else with_cookies
  let eff := wc && browser.isSome
  match engine n eff with
  | none => (eff, true)
  | some _ => (eff, false)

/-- Trace of one `run()`: the effective cookie flag of each engine batch
invocation, in order, and the arguments of each `finished.emit` call. -/
structure RunResult where
  attempts : List Bool
  finished : List Bool
deriving DecidableEq, Repr

/-- The body of the `try:` block of `DownloadWorker.run`.  `mkdirExn` is the
exception `Path(outdir).mkdir` raises, if any; `_run_all` catches every
exception of the engine itself, so the only escape from the body is the
mkdir failure, which happens before any attempt. -/
def runBody (mkdirExn : Option PyExn) (w : Worker)
    (engine : Nat → Bool → Option PyExn) : Except PyExn RunResult :=
  match mkdirExn with
  | some e => Except.error e
  | none =>
    match run_all engine w.cookie_browser 0 w.use_cookies with
    | (eff0, true) => Except.ok ⟨[eff0], [true]⟩
    | (eff0, false) =>
      if w.use_cookies then
        match run_all engine w.cookie_browser 1 false with
        | (eff1, ok2) => Except.ok ⟨[eff0, eff1], [ok2]⟩
      else Except.ok ⟨[eff0], [false]⟩

/-- `DownloadWorker.run`: the `try/except` wrapper; the handler logs and
emits `finished(False)`. -/
def run (mkdirExn : Option PyExn) (w : Worker)
    (engine : Nat → Bool → Option PyExn) : Except PyExn RunResult :=
  match runBody mkdirExn w engine with
  | Except.ok r => Except.ok r
  | Except.error _ => Except.ok ⟨[], [false]⟩

/-- The effective cookie flag of the first attempt:
`use_cookies` requested and a browser profile resolved. -/
def effFlag (w : Worker) : Bool :=
  w.use_cookies && w.cookie_browser.isSome

/-- Whether an orchestrator result is a normal return (no propagated
exception). -/
def isOkRun : Except PyExn RunResult → Bool
  | Except.ok _ => true
  | Except.error _ => false

/-- The `finished.emit` trace of an orchestrator result. -/
def finishedOf : Except PyExn RunResult → List Bool
  | Except.ok r => r.finished
  | Except.error _ => []

/-- The engine-invocation trace of an orchestrator result. -/
def attemptsOf : Except PyExn RunResult → List Bool
  | Except.ok r => r.attempts
  | Except.error _ => []

/-! ## Batch file parsing (`MainWindow.start_batch_from_file`, URL loop) -/

/-- `True` iff the stripped line starts with `#` (`ln.startswith("#")`). -/
def startsHash : List Char → Bool
  | [] => false
  | c :: _ => c = '#'

/-- The URL-collection loop of `start_batch_from_file`: strip each line, skip
empty and `#` lines, normalize the rest, keep non-empty results. -/
def parse_batch_lines : List String → List String
  | [] => []
  | ln :: rest =>
    let t := pyStripList ln.data
    if t = [] || startsHash t then parse_batch_lines rest
    else
      let u := normalize_youtube_url (String.mk t)
      if u ≠ "" then u :: parse_batch_lines rest
      else parse_batch_lines rest

/-! ## Lemmas about the capture of the shorts / short-link id -/

theorem takeIdRun_urlsafe : ∀ l : List Char, (takeIdRun l).all isUrlSafe = true := by
  intro l
  induction l with
  | nil => rfl
  | cons c cs ih => cases h : isUrlSafe c <;> simp [takeIdRun, h, ih]

theorem searchCapture_props (pat : List Char) :
    ∀ s vid : List Char, searchCapture pat s = some vid →
      6 ≤ vid.length ∧ vid.all isUrlSafe = true := by
  intro s
  induction s with
  | nil => intro vid h; simp [searchCapture] at h
  | cons c cs ih =>
    intro vid h
    unfold searchCapture at h
    cases hm : litMatch pat (c :: cs) with
    | none =>
      rw [hm] at h
      exact ih vid h
    | some rest =>
      rw [hm] at h
      simp only at h
      by_cases hl : 6 ≤ (takeIdRun rest).length
      · rw [if_pos hl] at h
        obtain rfl := Option.some.inj h
        exact ⟨hl, takeIdRun_urlsafe rest⟩
      · rw [if_neg hl] at h
        exact ih vid h

/-- C5: every input that is empty after trimming, lacks an http/https scheme,
or does not contain a recognized video-host domain is normalized to the empty
string; in particular "not a url" and "ftp://youtube.com/watch?v=abc123"
normalize to "". -/
theorem normalize_rejects :
    (∀ url : String,
      (pyStripList url.data = [] ∨ schemeOk (pyStripList url.data) = false ∨
        domainOk (pyStripList url.data) = false) →
      normalize_youtube_url url = "") ∧
    normalize_youtube_url "not a url" = "" ∧
    normalize_youtube_url "ftp://youtube.com/watch?v=abc123" = "" := by
  refine ⟨?_, by decide, by decide⟩
  intro url h
  unfold normalize_youtube_url normChars
  rcases h with h | h | h <;> simp [h]

/-- C5 witness: the universal part applied at "not a url". -/
theorem normalize_rejects_witness :
    (pyStripList "not a url".data = [] ∨ schemeOk (pyStripList "not a url".data) = false ∨
      domainOk (pyStripList "not a url".data) = false) ∧
    normalize_youtube_url "not a url" = "" :=
  ⟨by decide, normalize_rejects.1 "not a url" (by decide)⟩

/-- C6: an accepted URL matching the shorts pattern or the youtu.be pattern
(with an id of 6+ URL-safe characters) is rewritten to the canonical
watch?v= form; any other accepted URL is returned unchanged (i.e. as its
stripped self); in particular the two example URLs rewrite as claimed. -/
theorem normalize_rewrites :
    (∀ (url : String) (vid : List Char),
      ¬pyStripList url.data = [] →
      schemeOk (pyStripList url.data) = true →
      domainOk (pyStripList url.data) = true →
      searchCapture shortsPat (pyStripList url.data) = some vid →
      normalize_youtube_url url = "https://www.youtube.com/watch?v=" ++ String.mk vid ∧
        6 ≤ vid.length ∧ vid.all isUrlSafe = true) ∧
    (∀ (url : String) (vid : List Char),
      ¬pyStripList url.data = [] →
      schemeOk (pyStripList url.data) = true →
      domainOk (pyStripList url.data) = true →
      searchCapture shortsPat (pyStripList url.data) = none →
      searchCapture shortLinkPat (pyStripList url.data) = some vid →
      normalize_youtube_url url = "https://www.youtube.com/watch?v=" ++ String.mk vid ∧
        6 ≤ vid.length ∧ vid.all isUrlSafe = true) ∧
    (∀ url : String,
      ¬pyStripList url.data = [] →
      schemeOk (pyStripList url.data) = true →
      domainOk (pyStripList url.data) = true →
      searchCapture shortsPat (pyStripList url.data) = none →
      searchCapture shortLinkPat (pyStripList url.data) = none →
      normalize_youtube_url url = String.mk (pyStripList url.data)) ∧
    normalize_youtube_url "https://youtu.be/dQw4w9WgXcQ" =
      "https://www.youtube.com/watch?v=dQw4w9WgXcQ" ∧
    normalize_youtube_url "https://www.youtube.com/shorts/abcdEFghij" =
      "https://www.youtube.com/watch?v=abcdEFghij" := by
  refine ⟨?_, ?_, ?_, by decide, by decide⟩
  · intro url vid h1 h2 h3 h4
    refine ⟨?_, searchCapture_props shortsPat _ vid h4⟩
    unfold normalize_youtube_url normChars
    simp [h1, h2, h3, h4]
  · intro url vid h1 h2 h3 h4 h5
    refine ⟨?_, searchCapture_props shortLinkPat _ vid h5⟩
    unfold normalize_youtube_url normChars
    simp [h1, h2, h3, h4, h5]
  · intro url h1 h2 h3 h4 h5
    unfold normalize_youtube_url normChars
    simp [h1, h2, h3, h4, h5]

/-- C6 witness: the youtu.be rewriting part applied at the example URL. -/
theorem normalize_rewrites_witness :
    normalize_youtube_url "https://youtu.be/dQw4w9WgXcQ" =
      "https://www.youtube.com/watch?v=" ++ String.mk "dQw4w9WgXcQ".data ∧
    6 ≤ "dQw4w9WgXcQ".data.length ∧ "dQw4w9WgXcQ".data.all isUrlSafe = true :=
  normalize_rewrites.2.1 "https://youtu.be/dQw4w9WgXcQ" "dQw4w9WgXcQ".data
    (by decide) (by decide) (by decide) (by decide) (by decide)

/-- C10: domain recognition is substring-based, not host-based: a URL whose
host is "evil.example" but which mentions "youtube.com" in its query string
is accepted and returned unchanged. -/
theorem normalize_substring_domain :
    normalize_youtube_url "https://evil.example/?ref=youtube.com" =
      "https://evil.example/?ref=youtube.com" ∧
    domainOk (pyStripList "https://evil.example/?ref=youtube.com".data) = true ∧
    normalize_youtube_url "https://evil.example/?ref=youtube.com" ≠ "" := by
  refine ⟨by decide, by decide, by decide⟩

/-- C7: the format selector is pure and total on the offered quality tiers:
it returns a non-empty expression, identical inputs give identical outputs,
and with audio_only the expression is the same for every quality tier. -/
theorem build_format_pure_total :
    ∀ (q : String) (a : Bool), q ∈ qualities →
      build_format q a ≠ "" ∧
      build_format q a = build_format q a ∧
      (∀ q', q' ∈ qualities → build_format q true = build_format q' true) := by
  intro q a hq
  fin_cases hq <;> cases a <;>
    refine ⟨by decide, rfl, ?_⟩ <;>
    · intro q' hq'
      fin_cases hq' <;> rfl

/-- C7 witness: the selector applied at quality "1080". -/
theorem build_format_pure_total_witness :
    ("1080" ∈ qualities) ∧ build_format "1080" true ≠ "" ∧
    build_format "1080" true = build_format "360" true :=
  ⟨by decide, (build_format_pure_total "1080" true (by decide)).1,
    (build_format_pure_total "1080" true (by decide)).2.2 "360" (by decide)⟩

/-- C8: batch parsing skips blank and "#" lines, passes the others through the
normalizer dropping rejected ones, and the example line list yields exactly
one normalized URL. -/
theorem parse_batch_spec :
    (∀ (ln : String) (rest : List String),
      (pyStripList ln.data = [] ∨ startsHash (pyStripList ln.data) = true) →
      parse_batch_lines (ln :: rest) = parse_batch_lines rest) ∧
    (∀ (ln : String) (rest : List String),
      ¬(pyStripList ln.data = [] ∨ startsHash (pyStripList ln.data) = true) →
      normalize_youtube_url (String.mk (pyStripList ln.data)) = "" →
      parse_batch_lines (ln :: rest) = parse_batch_lines rest) ∧
    (∀ (ln : String) (rest : List String),
      ¬(pyStripList ln.data = [] ∨ startsHash (pyStripList ln.data) = true) →
      normalize_youtube_url (String.mk (pyStripList ln.data)) ≠ "" →
      parse_batch_lines (ln :: rest) =
        normalize_youtube_url (String.mk (pyStripList ln.data)) :: parse_batch_lines rest) ∧
    parse_batch_lines ["# comment", "", "https://youtu.be/abc123XYZ", "garbage"] =
      ["https://www.youtube.com/watch?v=abc123XYZ"] ∧
    (parse_batch_lines ["# comment", "", "https://youtu.be/abc123XYZ", "garbage"]).length = 1 := by
  refine ⟨?_, ?_, ?_, by decide, by decide⟩
  · intro ln rest h
    rcases h with h | h <;> simp [parse_batch_lines, h]
  · intro ln rest h hn
    push_neg at h
    simp [parse_batch_lines, h.1, h.2, hn]
  · intro ln rest h hn
    push_neg at h
    simp [parse_batch_lines, h.1, h.2, hn]

/-- C8 witness: the keep-a-valid-line part applied at a concrete line. -/
theorem parse_batch_spec_witness :
    parse_batch_lines ["https://youtu.be/abc123XYZ"] =
      normalize_youtube_url (String.mk (pyStripList "https://youtu.be/abc123XYZ".data)) ::
        parse_batch_lines [] :=
  parse_batch_spec.2.2.1 "https://youtu.be/abc123XYZ" [] (by decide) (by decide)

/-- C9: for a "downloading" dict the hook emits a single percent in [0, 100],
equal to the clamped `downloaded * 100 / total` when a non-zero total is
known and to 0 otherwise (the division is guarded by the total check); a
"finished" dict always emits percent 100. -/
theorem hook_percent_spec :
    (∀ d : ProgressDict, d.status = "downloading" →
      hook d = [.progress (hookPct d) (hookInfo d)] ∧
      hookPct d ≤ 100 ∧
      (hookTotal d = 0 → hookPct d = 0) ∧
      (hookTotal d ≠ 0 → hookPct d = min 100 (hookDownloaded d * 100 / hookTotal d))) ∧
    (∀ d : ProgressDict, d.status = "finished" →
      hook d = [.progress 100 "Fertig (Postprocessing)"]) := by
  constructor
  · intro d h
    refine ⟨by simp [hook, h], ?_, ?_, ?_⟩
    · unfold hookPct
      split
      · exact Nat.zero_le 100
      · exact min_le_left 100 _
    · intro h0; simp [hookPct, h0]
    · intro h0; simp [hookPct, h0]
  · intro d h
    simp [hook, h]

/-- C9 witness: the hook applied at a concrete downloading dict (50 of 200
bytes, percent 25) and at a finished dict. -/
theorem hook_percent_spec_witness :
    hook ⟨"downloading", some 200, none, some 50, some "1.0MiB/s", some "00:10"⟩ =
      [.progress (hookPct ⟨"downloading", some 200, none, some 50, some "1.0MiB/s", some "00:10"⟩)
        (hookInfo ⟨"downloading", some 200, none, some 50, some "1.0MiB/s", some "00:10"⟩)] ∧
    hookPct ⟨"downloading", some 200, none, some 50, some "1.0MiB/s", some "00:10"⟩ ≤ 100 ∧
    hook ⟨"finished", none, none, none, none, none⟩ =
      [.progress 100 "Fertig (Postprocessing)"] :=
  ⟨(hook_percent_spec.1 _ rfl).1, (hook_percent_spec.1 _ rfl).2.1,
    hook_percent_spec.2 ⟨"finished", none, none, none, none, none⟩ rfl⟩

/-! ## Orchestrator characterization -/

/-- Closed form of `run`: the mkdir failure short-circuits to a single
`finished(False)`; otherwise attempt 0 runs with the effective cookie flag,
and on failure a second, cookies-off attempt runs exactly when `use_cookies`
was requested. -/
theorem run_eq (mk : Option PyExn) (w : Worker) (engine : Nat → Bool → Option PyExn) :
    run mk w engine = Except.ok
      (match mk with
       | some _ => ⟨[], [false]⟩
       | none =>
         if (engine 0 (effFlag w)).isNone then ⟨[effFlag w], [true]⟩
         else if w.use_cookies then ⟨[effFlag w, false], [(engine 1 false).isNone]⟩
         else ⟨[effFlag w], [false]⟩) := by
  obtain ⟨urls, outdir, q, ao, ap, uc, br⟩ := w
  cases mk with
  | some e => rfl
  | none =>
    cases uc <;> cases br
    · cases h0 : engine 0 false <;> simp [run, runBody, run_all, effFlag, h0]
    · cases h0 : engine 0 false <;> simp [run, runBody, run_all, effFlag, h0]
    · cases h0 : engine 0 false <;> cases h1 : engine 1 false <;>
        simp [run, runBody, run_all, effFlag, h0, h1]
    · cases h0 : engine 0 true <;> cases h1 : engine 1 false <;>
        simp [run, runBody, run_all, effFlag, h0, h1]

/-- C4: every run returns normally (no propagated exception), emits exactly
one finished event, and that event carries `true` iff the directory creation
succeeded and the relevant attempt completed without an engine error. -/
theorem run_terminal_event :
    ∀ (mkdirExn : Option PyExn) (w : Worker) (engine : Nat → Bool → Option PyExn),
      isOkRun (run mkdirExn w engine) = true ∧
      (finishedOf (run mkdirExn w engine)).length = 1 ∧
      (finishedOf (run mkdirExn w engine) = [true] ↔
        mkdirExn = none ∧
          (engine 0 (effFlag w) = none ∨ w.use_cookies = true ∧ engine 1 false = none)) := by
  intro mk w engine
  rw [run_eq]
  cases mk with
  | some e => simp [isOkRun, finishedOf]
  | none =>
    cases h0 : engine 0 (effFlag w) <;> cases hu : w.use_cookies <;>
      cases h1 : engine 1 false <;> simp [isOkRun, finishedOf, h0, hu, h1]

/-- C2: if attempt 1 was made with cookies effectively on and the engine fails
it, exactly two batch attempts happen (cookies-on then cookies-off), never
more; if cookies were never enabled and attempt 1 fails, exactly one batch
attempt happens and failure is reported. -/
theorem run_attempt_counts :
    (∀ (w : Worker) (engine : Nat → Bool → Option PyExn) (b : String) (e : PyExn),
      w.use_cookies = true → w.cookie_browser = some b → engine 0 true = some e →
      run none w engine = Except.ok ⟨[true, false], [(engine 1 false).isNone]⟩) ∧
    (∀ (w : Worker) (engine : Nat → Bool → Option PyExn) (e : PyExn),
      w.use_cookies = false → engine 0 false = some e →
      run none w engine = Except.ok ⟨[false], [false]⟩) := by
  constructor
  · intro w engine b e hu hb h0
    rw [run_eq]
    have he : effFlag w = true := by simp [effFlag, hu, hb]
    simp [he, h0, hu]
  · intro w engine e hu h0
    rw [run_eq]
    have he : effFlag w = false := by simp [effFlag, hu]
    simp [he, h0, hu]

/-- An engine behavior that fails the first batch attempt and succeeds on the
second. -/
def engineFirstFails : Nat → Bool → Option PyExn :=
  fun n _ => if n = 0 then some (PyExn.downloadError "HTTP Error 403") else none

/-- An engine behavior that fails every batch attempt. -/
def engineAlwaysFails : Nat → Bool → Option PyExn :=
  fun _ _ => some (PyExn.downloadError "HTTP Error 403")

def workerCookiesChrome : Worker := ⟨["u"], "/tmp", "best", false, false, true, some "chrome"⟩

def workerNoCookies : Worker := ⟨["u"], "/tmp", "best", false, false, false, none⟩

/-- C2 witness: both parts applied at concrete workers and engine behaviors. -/
theorem run_attempt_counts_witness :
    run none workerCookiesChrome engineFirstFails = Except.ok ⟨[true, false], [true]⟩ ∧
    run none workerNoCookies engineAlwaysFails = Except.ok ⟨[false], [false]⟩ := by
  constructor
  · have h := run_attempt_counts.1 workerCookiesChrome engineFirstFails "chrome"
      (PyExn.downloadError "HTTP Error 403") rfl rfl rfl
    simpa [engineFirstFails] using h
  · exact run_attempt_counts.2 workerNoCookies engineAlwaysFails
      (PyExn.downloadError "HTTP Error 403") rfl rfl

/-- A Windows host on which no browser profile directory exists. -/
def envWinEmpty : Env :=
  ⟨true, "C:/Users/u/AppData/Roaming", "C:/Users/u/AppData/Local", fun _ => false⟩

/-- C1 counterexample: with `use_cookies = true` and the resolver returning
absent, a first-attempt failure is NOT terminal: the orchestrator performs a
second batch attempt (both effectively cookies-off), so the engine is invoked
twice, not once. -/
theorem run_no_browser_counterexample :
    pick_cookie_browser envWinEmpty = none ∧
    run none (Worker.init envWinEmpty ["u"] "/tmp" "best" false false true) engineAlwaysFails =
      Except.ok ⟨[false, false], [false]⟩ ∧
    ([false, false] : List Bool).length ≠ 1 :=
  ⟨rfl, rfl, by decide⟩

/-- C1 amended: when `use_cookies` is true but no browser profile was
resolved, the first attempt runs effectively cookies-off, and if it fails the
orchestrator still performs a second (equally cookies-off) batch attempt:
two engine invocations, not one. -/
theorem run_no_browser_retries_anyway :
    ∀ (w : Worker) (engine : Nat → Bool → Option PyExn) (e : PyExn),
      w.use_cookies = true → w.cookie_browser = none → engine 0 false = some e →
      run none w engine = Except.ok ⟨[false, false], [(engine 1 false).isNone]⟩ := by
  intro w engine e hu hb h0
  rw [run_eq]
  have he : effFlag w = false := by simp [effFlag, hb]
  simp [he, h0, hu]

/-- C1 amended witness: a worker built from a profile-less Windows host. -/
theorem run_no_browser_retries_anyway_witness :
    run none (Worker.init envWinEmpty ["u"] "/tmp" "best" false false true) engineAlwaysFails =
      Except.ok ⟨[false, false], [(engineAlwaysFails 1 false).isNone]⟩ :=
  run_no_browser_retries_anyway (Worker.init envWinEmpty ["u"] "/tmp" "best" false false true)
    engineAlwaysFails (PyExn.downloadError "HTTP Error 403") rfl rfl rfl

/-- A non-Windows host on which no browser profile directory exists. -/
def envLinuxEmpty : Env := ⟨false, "", "", fun _ => false⟩

/-- C3 counterexample: on a non-Windows host with no existing profile
directory for any candidate, the resolver still returns "firefox" instead of
absent. -/
theorem pick_cookie_browser_counterexample :
    pick_cookie_browser envLinuxEmpty = some "firefox" ∧
    browser_profile_exists envLinuxEmpty "chrome" = false ∧
    browser_profile_exists envLinuxEmpty "edge" = false ∧
    browser_profile_exists envLinuxEmpty "firefox" = false ∧
    some "firefox" ≠ (none : Option String) :=
  ⟨rfl, rfl, rfl, rfl, by decide⟩

/-- C3 amended: only on Windows does the resolver return the first candidate
(in the order chrome, edge, firefox) whose profile directory exists, and
absent when none does; on every other platform it returns "firefox"
unconditionally, without probing the filesystem. -/
theorem pick_cookie_browser_amended :
    ∀ env : Env,
      pick_cookie_browser env =
        if env.is_windows then
          List.find? (fun b => browser_profile_exists env b) ["chrome", "edge", "firefox"]
        else some "firefox" := by
  intro env
  cases hw : env.is_windows
  · simp [pick_cookie_browser, hw]
  · cases hc : browser_profile_exists env "chrome" <;>
      cases he : browser_profile_exists env "edge" <;>
      cases hf : browser_profile_exists env "firefox" <;>
      simp [pick_cookie_browser, hw, hc, he, hf, List.find?]

end YtdlGui
